import Mathlib

/-!
Verification of the User-Power user-management backend: a shallow embedding
of its data model, permission check, authentication flow and lifecycle
handlers, with theorems settling the specification's claims about them.

Source files embedded: `db/models.py`, `db/dals.py`, `api/actions/user.py`,
`api/actions/auth.py`, `api/handlers.py`, `api/login_handler.py`.
-/

namespace UserPower

/-- `PortalRole` from `db/models.py`: enum of the three portal roles. -/
inductive PortalRole where
  | ROLE_PORTAL_USER
  | ROLE_PORTAL_ADMIN
  | ROLE_PORTAL_SUPERADMIN
deriving DecidableEq, Repr

/-- `User` from `db/models.py`.  `user_id` (a UUID in the source) is modelled
as a `Nat`; `roles` is the `ARRAY` column, a list of role tags. -/
structure User where
  user_id : Nat
  name : String
  surname : String
  email : String
  is_active : Bool
  hashed_password : String
  roles : List PortalRole
deriving DecidableEq, Repr

/-- `User.is_superadmin` property from `db/models.py`. -/
def User.is_superadmin (u : User) : Bool :=
  u.roles.contains PortalRole.ROLE_PORTAL_SUPERADMIN

/-- `User.is_admin` property from `db/models.py`. -/
def User.is_admin (u : User) : Bool :=
  u.roles.contains PortalRole.ROLE_PORTAL_ADMIN

/-- `User.enrich_admin_roles_by_admin_role` from `db/models.py`:
returns `{*self.roles, ROLE_PORTAL_ADMIN}` (a Python set) when the user is
not an admin, and `None` (falls off the end) otherwise. -/
def User.enrich_admin_roles_by_admin_role (u : User) : Option (Finset PortalRole) :=
  if ¬ u.is_admin then
    some (insert PortalRole.ROLE_PORTAL_ADMIN u.roles.toFinset)
  else
    none

/-- `User.remove_admin_privileges_from_model` from `db/models.py`:
returns `{role for role in self.roles if role != ROLE_PORTAL_ADMIN}` when the
user is an admin, and `None` otherwise. -/
def User.remove_admin_privileges_from_model (u : User) : Option (Finset PortalRole) :=
  if u.is_admin then
    some (u.roles.toFinset.filter (· ≠ PortalRole.ROLE_PORTAL_ADMIN))
  else
    none

/-- Result of `check_user_permissions` in `api/actions/user.py`: the function
either raises `HTTPException(406, "Superadmin cannot be deleted via API.")`
or returns a boolean. -/
inductive PermResult where
  | raise406
  | ok : Bool → PermResult
deriving DecidableEq, Repr

/-- `check_user_permissions` from `api/actions/user.py` lines 110-144,
line by line: raise 406 when `ROLE_PORTAL_SUPERADMIN in current_user.roles`;
for a distinct target, deny when `current_user` has neither admin role,
deny admin-on-superadmin and admin-on-admin; otherwise return `True`. -/
def check_user_permissions (target_user current_user : User) : PermResult :=
  if current_user.roles.contains PortalRole.ROLE_PORTAL_SUPERADMIN then
    PermResult.raise406
  else if target_user.user_id != current_user.user_id then
    if !(current_user.roles.contains PortalRole.ROLE_PORTAL_ADMIN
        || current_user.roles.contains PortalRole.ROLE_PORTAL_SUPERADMIN) then
      PermResult.ok false
    else if target_user.roles.contains PortalRole.ROLE_PORTAL_SUPERADMIN
        && current_user.roles.contains PortalRole.ROLE_PORTAL_ADMIN then
      PermResult.ok false
    else if target_user.roles.contains PortalRole.ROLE_PORTAL_ADMIN
        && current_user.roles.contains PortalRole.ROLE_PORTAL_ADMIN then
      PermResult.ok false
    else
      PermResult.ok true
  else
    PermResult.ok true

/-- The two mutating actions gated by the permission check in
`api/handlers.py` (`delete_user` deactivates, `update_user_by_id` updates).
The implemented `check_user_permissions` takes no action argument; this
wrapper records that both handlers pass none. -/
inductive UserAction where
  | DEACTIVATE
  | UPDATE_FIELDS
deriving DecidableEq, Repr

/-- The permission decision as the handlers use it, indexed by the action the
caller is performing: both call sites of `check_user_permissions` in
`api/handlers.py` invoke it identically, with no action argument. -/
def can_modify (acting target : User) (_action : UserAction) : PermResult :=
  check_user_permissions target acting

/-! ### The credential store and the DAL (`db/dals.py`) -/

/-- The credential store: the `users` table, as the list of its rows. -/
abbrev Store := List User

/-- `UserDAL.get_user_by_id` from `db/dals.py` lines 84-98:
`select(User).where(User.user_id == user_id)` then `fetchone()` — the lookup
is NOT scoped to active rows. -/
def UserDAL.get_user_by_id (store : Store) (user_id : Nat) : Option User :=
  List.find? (fun u => u.user_id == user_id) store

/-- `UserDAL.get_user_by_email` from `db/dals.py` lines 100-114: unscoped
lookup by email, `fetchone()`. -/
def UserDAL.get_user_by_email (store : Store) (email : String) : Option User :=
  List.find? (fun u => u.email == email) store

/-- `UserDAL.delete_user` from `db/dals.py` lines 63-82: the conditional
update `UPDATE users SET is_active=false WHERE user_id = :id AND is_active
RETURNING user_id`; returns the returned id, or `None` when the update
matched zero rows. -/
def UserDAL.delete_user (store : Store) (user_id : Nat) : Option Nat :=
  (List.find? (fun u => u.user_id == user_id && u.is_active) store).map
    (fun u => u.user_id)

/-- `UserDAL.update_user` from `db/dals.py` lines 116-136: the conditional
update `UPDATE users SET ... WHERE user_id = :id AND is_active RETURNING
user_id`; the written field values do not affect the returned id. -/
def UserDAL.update_user (store : Store) (user_id : Nat) : Option Nat :=
  (List.find? (fun u => u.user_id == user_id && u.is_active) store).map
    (fun u => u.user_id)

/-! ### Handlers (`api/handlers.py`, `api/login_handler.py`) -/

/-- Outcome of a handler call.  `httpError s` is a raised
`HTTPException(status_code=s)` (raised by the handler itself or propagated
from `check_user_permissions`); `pyError` is an uncaught ordinary Python
exception, surfaced by the framework as a raw internal error. -/
inductive HResp (α : Type) where
  | ok : α → HResp α
  | httpError : Nat → HResp α
  | pyError : String → HResp α
deriving DecidableEq, Repr

/-- `delete_user` handler from `api/handlers.py` lines 58-93: fetch the
target (404 when absent), run `check_user_permissions` (its 406 propagates;
`False` becomes 403), then the active-scoped DAL soft delete (404 when it
matched zero rows). -/
def delete_user (store : Store) (user_id : Nat) (current_user : User) :
    HResp Nat :=
  match UserDAL.get_user_by_id store user_id with
  | none => HResp.httpError 404
  | some user_for_deletion =>
    match check_user_permissions user_for_deletion current_user with
    | PermResult.raise406 => HResp.httpError 406
    | PermResult.ok false => HResp.httpError 403
    | PermResult.ok true =>
      match UserDAL.delete_user store user_id with
      | none => HResp.httpError 404
      | some deleted_user_id => HResp.ok deleted_user_id

/-- `grant_admin_privilege` handler from `api/handlers.py` lines 96-144,
in the source's order of checks: 403 unless the caller is superadmin, 400 on
self, then line 125 reads `user_for_promotion.is_admin` BEFORE the
`is None` check of line 130 — on a missing target this is `None.is_admin`,
an uncaught `AttributeError`; the 404 branch is unreachable. -/
def grant_admin_privilege (store : Store) (user_id : Nat)
    (current_user : User) : HResp (Option Nat) :=
  if ¬ current_user.is_superadmin then
    HResp.httpError 403
  else if current_user.user_id == user_id then
    HResp.httpError 400
  else
    match UserDAL.get_user_by_id store user_id with
    | none => HResp.pyError "AttributeError"
    | some user_for_promotion =>
      if user_for_promotion.is_admin || user_for_promotion.is_superadmin then
        HResp.httpError 409
      else
        -- line 130 `if user_for_promotion is None` is False on this branch
        HResp.ok (UserDAL.update_user store user_id)

/-- The permission stage of the `delete_user` handler, `api/handlers.py`
lines 83-87: the status of the `HTTPException` this stage raises (`none`
when the request passes on to the DAL delete). -/
def delete_user_permission_stage (target_user current_user : User) :
    Option Nat :=
  match check_user_permissions target_user current_user with
  | PermResult.raise406 => some 406
  | PermResult.ok false => some 403
  | PermResult.ok true => none

/-- The permission stage of the `update_user_by_id` handler,
`api/handlers.py` lines 255-258: the status of the `HTTPException` this
stage raises (`none` when the request passes on to the DAL update). -/
def update_user_permission_stage (target_user current_user : User) :
    Option Nat :=
  match check_user_permissions target_user current_user with
  | PermResult.raise406 => some 406
  | PermResult.ok false => some 403
  | PermResult.ok true => none

/-- What the store did during a handler's write call: either it raised
`IntegrityError` (e.g. a duplicate email hit the unique constraint), or the
DAL call returned normally with this id. -/
inductive WriteOutcome where
  | raised_integrity
  | returned : Option Nat → WriteOutcome
deriving DecidableEq, Repr

/-- The write stage of the `create_user` handler, `api/handlers.py` lines
51-55: `IntegrityError` is logged and re-raised as `HTTPException(503)`. -/
def create_user_write_stage (w : WriteOutcome) : HResp (Option Nat) :=
  match w with
  | WriteOutcome.raised_integrity => HResp.httpError 503
  | WriteOutcome.returned r => HResp.ok r

/-- The write stage of the `grant_admin_privilege` handler,
`api/handlers.py` lines 137-144: `IntegrityError` is logged and re-raised
as `HTTPException(503)`. -/
def grant_admin_write_stage (w : WriteOutcome) : HResp (Option Nat) :=
  match w with
  | WriteOutcome.raised_integrity => HResp.httpError 503
  | WriteOutcome.returned r => HResp.ok r

/-- The write stage of the `revoke_admin_privilege` handler,
`api/handlers.py` lines 187-194: `IntegrityError` is logged and re-raised
as `HTTPException(503)`. -/
def revoke_admin_write_stage (w : WriteOutcome) : HResp (Option Nat) :=
  match w with
  | WriteOutcome.raised_integrity => HResp.httpError 503
  | WriteOutcome.returned r => HResp.ok r

/-- The write stage of the `update_user_by_id` handler, `api/handlers.py`
lines 260-266: the `except IntegrityError` block only logs — it raises no
`HTTPException` — so control falls through to
`return UpdatedUserResponse(updated_user_id=updated_user_id)` with the local
`updated_user_id` never assigned: an uncaught `UnboundLocalError`. -/
def update_user_write_stage (w : WriteOutcome) : HResp (Option Nat) :=
  match w with
  | WriteOutcome.raised_integrity => HResp.pyError "UnboundLocalError"
  | WriteOutcome.returned r => HResp.ok r

/-! ### Authentication flow (`api/actions/auth.py`, `api/login_handler.py`) -/

/-- `authenticate_user` from `api/actions/auth.py` lines 43-62: unscoped
lookup by email; `None` when absent; `None` when
`Hasher.verify_password(password, user.hashed_password)` is false; else the
user.  The password verifier is the black-box `verify`. -/
def authenticate_user (verify : String → String → Bool) (store : Store)
    (email password : String) : Option User :=
  match UserDAL.get_user_by_email store email with
  | none => none
  | some user =>
    if ¬ verify password user.hashed_password then none else some user

/-- Outcome of the login endpoint: an issued access token, or a raised
`HTTPException(401, detail)`. -/
inductive LoginResult where
  | token : String → LoginResult
  | http401 : String → LoginResult
deriving DecidableEq, Repr

/-- `login_for_access_token` from `api/login_handler.py` lines 29-58:
`if not user: raise HTTPException(401, "Incorrect username or password")`,
else issue a token for `user.email` (token creation is the black-box
`issue`). -/
def login_for_access_token (verify : String → String → Bool)
    (issue : String → String) (store : Store) (username password : String) :
    LoginResult :=
  match authenticate_user verify store username password with
  | none => LoginResult.http401 "Incorrect username or password"
  | some user => LoginResult.token (issue user.email)

/-! ### Concrete users for witnesses and counterexamples -/

/-- A superadmin account (id 1, active). -/
def superadmin_user : User :=
  { user_id := 1, name := "Sa", surname := "Boss", email := "sa@x.com",
    is_active := true, hashed_password := "h1",
    roles := [PortalRole.ROLE_PORTAL_USER, PortalRole.ROLE_PORTAL_SUPERADMIN] }

/-- A plain account (id 2, active, role USER only). -/
def plain_user : User :=
  { user_id := 2, name := "Pe", surname := "Plain", email := "pu@x.com",
    is_active := true, hashed_password := "h2",
    roles := [PortalRole.ROLE_PORTAL_USER] }

/-- An admin account (id 3, active). -/
def admin_user : User :=
  { user_id := 3, name := "Ad", surname := "Min", email := "ad@x.com",
    is_active := true, hashed_password := "h3",
    roles := [PortalRole.ROLE_PORTAL_USER, PortalRole.ROLE_PORTAL_ADMIN] }

/-- A soft-deleted account (id 4, `is_active = false`). -/
def inactive_user : User :=
  { user_id := 4, name := "Inna", surname := "Gone", email := "ig@x.com",
    is_active := false, hashed_password := "h4",
    roles := [PortalRole.ROLE_PORTAL_USER] }

/-- A second plain account (id 5, active, role USER only). -/
def other_plain_user : User :=
  { user_id := 5, name := "Ot", surname := "Her", email := "oh@x.com",
    is_active := true, hashed_password := "h5",
    roles := [PortalRole.ROLE_PORTAL_USER] }

/-! ### Claims -/

/-- C1: the spec claims a superadmin acting on a different, non-admin,
non-superadmin target is allowed for both DEACTIVATE and UPDATE_FIELDS.
The code instead raises `HTTPException(406)` the moment the ACTING user
holds SUPERADMIN, so the superadmin actor is rejected at every target and
action, and the `delete_user` handler surfaces 406 — evaluated here at the
failing input (superadmin id 1 acting on plain user id 2). -/
theorem c1_superadmin_actor_always_406 :
    can_modify superadmin_user plain_user UserAction.DEACTIVATE
      = PermResult.raise406 ∧
    can_modify superadmin_user plain_user UserAction.UPDATE_FIELDS
      = PermResult.raise406 ∧
    delete_user [superadmin_user, plain_user] 2 superadmin_user
      = HResp.httpError 406 ∧
    update_user_permission_stage plain_user superadmin_user = some 406 := by
  decide

/-- C2 counterexample: the claim says `can_modify(u, u, UPDATE_FIELDS)` is
true for every user `u`; for a superadmin `u` the check instead raises the
406 policy error. -/
theorem c2_superadmin_self_update_counterexample :
    can_modify superadmin_user superadmin_user UserAction.UPDATE_FIELDS
      ≠ PermResult.ok true ∧
    can_modify superadmin_user superadmin_user UserAction.UPDATE_FIELDS
      = PermResult.raise406 := by
  decide

/-- C2 (amended): every user not holding SUPERADMIN may act on themself —
the check returns true for both actions; a user holding SUPERADMIN is
rejected with the hard 406 policy error for every self action, update as
well as deactivate. -/
theorem c2_self_service :
    (∀ u : User,
      u.roles.contains PortalRole.ROLE_PORTAL_SUPERADMIN = false →
      ∀ a : UserAction, can_modify u u a = PermResult.ok true) ∧
    (∀ u : User,
      u.roles.contains PortalRole.ROLE_PORTAL_SUPERADMIN = true →
      ∀ a : UserAction, can_modify u u a = PermResult.raise406) := by
  constructor
  · intro u h a
    have h' : PortalRole.ROLE_PORTAL_SUPERADMIN ∉ u.roles := by simpa using h
    simp [can_modify, check_user_permissions, h']
  · intro u h a
    have h' : PortalRole.ROLE_PORTAL_SUPERADMIN ∈ u.roles := by simpa using h
    simp [can_modify, check_user_permissions, h']

/-- C2 witness: the amended claim evaluated at a plain user and at a
superadmin. -/
theorem c2_self_service_witness :
    can_modify plain_user plain_user UserAction.UPDATE_FIELDS
      = PermResult.ok true ∧
    can_modify superadmin_user superadmin_user UserAction.DEACTIVATE
      = PermResult.raise406 :=
  ⟨c2_self_service.1 plain_user rfl UserAction.UPDATE_FIELDS,
   c2_self_service.2 superadmin_user rfl UserAction.DEACTIVATE⟩

/-- C3: with a superadmin caller and a missing target id, the promote
handler reads `user_for_promotion.is_admin` before the `is None` check, so
it dies with an uncaught `AttributeError` (a raw internal error) instead of
reporting the 404 the spec promises — evaluated at the failing input
(superadmin id 1 promoting absent id 2). -/
theorem c3_grant_missing_target_is_attribute_failure :
    grant_admin_privilege [superadmin_user] 2 superadmin_user
      = HResp.pyError "AttributeError" ∧
    grant_admin_privilege [superadmin_user] 2 superadmin_user
      ≠ HResp.httpError 404 := by
  decide

/-- C4: the claim says all four writing operations surface a store
`IntegrityError` as HTTP 503.  Register, promote and revoke do; the
update handler's `except IntegrityError` block only logs, then the handler
reads the never-assigned `updated_user_id` — an uncaught
`UnboundLocalError`, a raw internal error, not 503. -/
theorem c4_integrity_error_surfacing :
    create_user_write_stage WriteOutcome.raised_integrity
      = HResp.httpError 503 ∧
    grant_admin_write_stage WriteOutcome.raised_integrity
      = HResp.httpError 503 ∧
    revoke_admin_write_stage WriteOutcome.raised_integrity
      = HResp.httpError 503 ∧
    update_user_write_stage WriteOutcome.raised_integrity
      = HResp.pyError "UnboundLocalError" ∧
    update_user_write_stage WriteOutcome.raised_integrity
      ≠ HResp.httpError 503 := by
  decide

/-- C5: an actor holding ADMIN but not SUPERADMIN, acting on a different
target holding ADMIN or SUPERADMIN, is denied (the check returns false)
for both actions. -/
theorem c5_admin_never_touches_admins (target current : User)
    (hA : current.roles.contains PortalRole.ROLE_PORTAL_ADMIN = true)
    (hS : current.roles.contains PortalRole.ROLE_PORTAL_SUPERADMIN = false)
    (hne : target.user_id ≠ current.user_id)
    (hT : target.roles.contains PortalRole.ROLE_PORTAL_ADMIN = true ∨
          target.roles.contains PortalRole.ROLE_PORTAL_SUPERADMIN = true) :
    ∀ a : UserAction, can_modify current target a = PermResult.ok false := by
  intro a
  have hbne : (target.user_id != current.user_id) = true := by
    simp [bne_iff_ne, hne]
  have hA' : PortalRole.ROLE_PORTAL_ADMIN ∈ current.roles := by simpa using hA
  have hS' : PortalRole.ROLE_PORTAL_SUPERADMIN ∉ current.roles := by
    simpa using hS
  by_cases hTS :
      PortalRole.ROLE_PORTAL_SUPERADMIN ∈ target.roles
  · simp [can_modify, check_user_permissions, hA', hS', hbne, hTS]
  · have hTA : PortalRole.ROLE_PORTAL_ADMIN ∈ target.roles := by
      rcases hT with h | h
      · simpa using h
      · exact absurd (by simpa using h) hTS
    simp [can_modify, check_user_permissions, hA', hS', hbne, hTS, hTA]

/-- C5 witness: admin (id 3) attempting to deactivate the superadmin
(id 1) is denied. -/
theorem c5_admin_never_touches_admins_witness :
    can_modify admin_user superadmin_user UserAction.DEACTIVATE
      = PermResult.ok false :=
  c5_admin_never_touches_admins superadmin_user admin_user rfl rfl
    (by decide) (Or.inr rfl) UserAction.DEACTIVATE

/-- C6: an actor holding neither ADMIN nor SUPERADMIN, acting on a
different target, is denied (the check returns false for both actions),
and the `delete_user` handler reports 403 Forbidden. -/
theorem c6_unprivileged_actor_forbidden (target current : User)
    (hA : current.roles.contains PortalRole.ROLE_PORTAL_ADMIN = false)
    (hS : current.roles.contains PortalRole.ROLE_PORTAL_SUPERADMIN = false)
    (hne : target.user_id ≠ current.user_id) :
    (∀ a : UserAction, can_modify current target a = PermResult.ok false) ∧
    (∀ (store : Store) (uid : Nat),
      UserDAL.get_user_by_id store uid = some target →
      delete_user store uid current = HResp.httpError 403) := by
  have hA' : PortalRole.ROLE_PORTAL_ADMIN ∉ current.roles := by simpa using hA
  have hS' : PortalRole.ROLE_PORTAL_SUPERADMIN ∉ current.roles := by
    simpa using hS
  have hbne : (target.user_id != current.user_id) = true := by
    simp [bne_iff_ne, hne]
  have hperm : check_user_permissions target current = PermResult.ok false := by
    simp [check_user_permissions, hA', hS', hbne]
  refine ⟨fun a => hperm, ?_⟩
  intro store uid hfetch
  simp [delete_user, hfetch, hperm]

/-- C6 witness: plain user (id 2) attempting to deactivate a different
plain user (id 5) is denied and the handler reports 403. -/
theorem c6_unprivileged_actor_forbidden_witness :
    can_modify plain_user other_plain_user UserAction.DEACTIVATE
      = PermResult.ok false ∧
    delete_user [other_plain_user] 5 plain_user = HResp.httpError 403 :=
  ⟨(c6_unprivileged_actor_forbidden other_plain_user plain_user rfl rfl
      (by decide)).1 UserAction.DEACTIVATE,
   (c6_unprivileged_actor_forbidden other_plain_user plain_user rfl rfl
      (by decide)).2 [other_plain_user] 5 rfl⟩

/-- C7: for any verifier, token issuer and stores, a login failing because
the email is unknown and a login failing because the password does not
verify both produce the very same outcome: a 401 with the one message
"Incorrect username or password" — the two causes are indistinguishable. -/
theorem c7_login_failures_indistinguishable
    (verify : String → String → Bool) (issue : String → String)
    (s s' : Store) (e p e' p' : String) (u : User)
    (h1 : UserDAL.get_user_by_email s e = none)
    (h2 : UserDAL.get_user_by_email s' e' = some u)
    (h3 : verify p' u.hashed_password = false) :
    login_for_access_token verify issue s e p
      = LoginResult.http401 "Incorrect username or password" ∧
    login_for_access_token verify issue s' e' p'
      = LoginResult.http401 "Incorrect username or password" ∧
    login_for_access_token verify issue s e p
      = login_for_access_token verify issue s' e' p' := by
  have ha : authenticate_user verify s e p = none := by
    simp [authenticate_user, h1]
  have hb : authenticate_user verify s' e' p' = none := by
    simp [authenticate_user, h2, h3]
  refine ⟨?_, ?_, ?_⟩ <;> simp [login_for_access_token, ha, hb]

/-- C7 witness: an empty store (unknown email) against a store holding the
plain user with an always-false verifier (wrong password). -/
theorem c7_login_failures_indistinguishable_witness :
    login_for_access_token (fun _ _ => false) (fun _ => "tok") [] "pu@x.com" "pw"
      = LoginResult.http401 "Incorrect username or password" ∧
    login_for_access_token (fun _ _ => false) (fun _ => "tok") [plain_user]
        "pu@x.com" "pw"
      = LoginResult.http401 "Incorrect username or password" ∧
    login_for_access_token (fun _ _ => false) (fun _ => "tok") [] "pu@x.com" "pw"
      = login_for_access_token (fun _ _ => false) (fun _ => "tok") [plain_user]
          "pu@x.com" "pw" :=
  c7_login_failures_indistinguishable (fun _ _ => false) (fun _ => "tok")
    [] [plain_user] "pu@x.com" "pw" "pu@x.com" "pw" plain_user rfl rfl rfl

/-- C8: when every row of the store with the target id is inactive (in
particular when the target was fetched but is already soft-deleted), the
active-scoped conditional update matches zero rows and the `delete_user`
handler reports 404 rather than success. -/
theorem c8_deactivate_inactive_reports_not_found (store : Store) (uid : Nat)
    (current target : User)
    (hfetch : UserDAL.get_user_by_id store uid = some target)
    (hperm : check_user_permissions target current = PermResult.ok true)
    (hnoactive : ∀ u ∈ store, u.user_id = uid → u.is_active = false) :
    delete_user store uid current = HResp.httpError 404 := by
  have hfind :
      List.find? (fun u => u.user_id == uid && u.is_active) store = none := by
    rw [List.find?_eq_none]
    intro x hx
    simp only [Bool.and_eq_true, beq_iff_eq, not_and]
    intro hxid
    rw [hnoactive x hx hxid]
    simp
  have hdal : UserDAL.delete_user store uid = none := by
    simp [UserDAL.delete_user, hfind]
  simp [delete_user, hfetch, hperm, hdal]

/-- C8 witness: the already-inactive user (id 4) deactivating themself a
second time gets 404. -/
theorem c8_deactivate_inactive_reports_not_found_witness :
    delete_user [inactive_user] 4 inactive_user = HResp.httpError 404 :=
  c8_deactivate_inactive_reports_not_found [inactive_user] 4
    inactive_user inactive_user rfl rfl (by decide)

/-- C9: the permission decision, including which exception is raised, is
identical for DEACTIVATE and UPDATE_FIELDS: the implemented check takes no
action argument, and the permission stages of the delete and update
handlers raise the same status (or both pass) on every pair of users. -/
theorem c9_action_plays_no_role :
    (∀ (acting target : User),
      can_modify acting target UserAction.DEACTIVATE
        = can_modify acting target UserAction.UPDATE_FIELDS) ∧
    (∀ (target current : User),
      delete_user_permission_stage target current
        = update_user_permission_stage target current) :=
  ⟨fun _ _ => rfl, fun _ _ => rfl⟩

/-- C10: promotion of a non-admin yields exactly the old role set plus
ADMIN (no existing tag dropped), revocation on an admin yields exactly the
old role set minus ADMIN (no other tag removed), and USER membership is
preserved by both. -/
theorem c10_role_changes_touch_only_admin (u : User) :
    (u.is_admin = false →
      u.enrich_admin_roles_by_admin_role
        = some (u.roles.toFinset ∪ {PortalRole.ROLE_PORTAL_ADMIN}) ∧
      ∀ s, u.enrich_admin_roles_by_admin_role = some s →
        (∀ r ∈ u.roles.toFinset, r ∈ s) ∧
        (PortalRole.ROLE_PORTAL_USER ∈ u.roles.toFinset →
          PortalRole.ROLE_PORTAL_USER ∈ s)) ∧
    (u.is_admin = true →
      u.remove_admin_privileges_from_model
        = some (u.roles.toFinset \ {PortalRole.ROLE_PORTAL_ADMIN}) ∧
      ∀ s, u.remove_admin_privileges_from_model = some s →
        (∀ r, r ≠ PortalRole.ROLE_PORTAL_ADMIN →
          (r ∈ s ↔ r ∈ u.roles.toFinset)) ∧
        (PortalRole.ROLE_PORTAL_USER ∈ u.roles.toFinset →
          PortalRole.ROLE_PORTAL_USER ∈ s)) := by
  constructor
  · intro h
    have henrich : u.enrich_admin_roles_by_admin_role
        = some (insert PortalRole.ROLE_PORTAL_ADMIN u.roles.toFinset) := by
      simp [User.enrich_admin_roles_by_admin_role, h]
    constructor
    · rw [henrich]
      congr 1
      ext r
      simp [or_comm]
    · intro s hs
      rw [henrich] at hs
      have hs' : s = insert PortalRole.ROLE_PORTAL_ADMIN u.roles.toFinset :=
        (Option.some.injEq _ _).mp hs.symm
      subst hs'
      exact ⟨fun r hr => Finset.mem_insert_of_mem hr,
        fun hr => Finset.mem_insert_of_mem hr⟩
  · intro h
    have hremove : u.remove_admin_privileges_from_model
        = some (u.roles.toFinset.filter
            (· ≠ PortalRole.ROLE_PORTAL_ADMIN)) := by
      simp [User.remove_admin_privileges_from_model, h]
    constructor
    · rw [hremove]
      congr 1
      ext r
      simp [Finset.mem_filter, Finset.mem_sdiff, and_comm]
    · intro s hs
      rw [hremove] at hs
      have hs' : s = u.roles.toFinset.filter
          (· ≠ PortalRole.ROLE_PORTAL_ADMIN) :=
        (Option.some.injEq _ _).mp hs.symm
      subst hs'
      constructor
      · intro r hr
        simp [Finset.mem_filter, hr]
      · intro hr
        simp [Finset.mem_filter, hr]

/-- C10 witness: promoting the plain user adds ADMIN to their roles;
revoking the admin user removes exactly ADMIN. -/
theorem c10_role_changes_touch_only_admin_witness :
    plain_user.enrich_admin_roles_by_admin_role
      = some (plain_user.roles.toFinset ∪ {PortalRole.ROLE_PORTAL_ADMIN}) ∧
    admin_user.remove_admin_privileges_from_model
      = some (admin_user.roles.toFinset \ {PortalRole.ROLE_PORTAL_ADMIN}) :=
  ⟨((c10_role_changes_touch_only_admin plain_user).1 rfl).1,
   ((c10_role_changes_touch_only_admin admin_user).2 rfl).1⟩

end UserPower
